import Mathlib

/-!
Shallow embedding of `src/orgtraj.py`: organized featurized trajectories.
Numeric entries are modelled as rationals, Python dictionaries as ordered
association lists with insert-or-overwrite assignment, Python exceptions as
an explicit error type, and the HDF5 store as the documented key-value
container with explicit open-handle tracking.
-/

namespace Orgtraj

/-- Scalar metadata values (Python strings, integers and floats). -/
inductive MVal
  | s (v : String)
  | i (v : Int)
  | q (v : Rat)
deriving DecidableEq, Repr

/-- A Python dict with string keys, as an ordered association list. -/
abbrev Dict (α : Type) := List (String × α)

/-- Metadata dictionaries mapping string keys to scalar values. -/
abbrev Metadata := Dict MVal

/-- Python dict assignment `d[k] = v`: overwrite in place, or append a new key. -/
def dinsert {α : Type} (k : String) (v : α) : Dict α → Dict α
  | [] => [(k, v)]
  | (k', v') :: rest => if k' = k then (k, v) :: rest else (k', v') :: dinsert k v rest

/-- Python dict lookup `d[k]`: first (and, for a dict, only) occurrence of the key. -/
def dlookup {α : Type} (k : String) : Dict α → Option α
  | [] => none
  | (k', v) :: rest => if k' = k then some v else dlookup k rest

/-- A pandas DataFrame as built by orgtraj: a two-level `(frame, state)` row
index, the column labels, and the numeric values in row-major order. -/
structure DataFrame where
  index : List (Int × Int)
  columns : List String
  values : List (List Rat)
deriving DecidableEq, Repr

/-- Python exceptions raised by the embedded code. -/
inductive PyErr
  | valueError (msg : String)
  | keyError (key : String)
  | indexError
  | attributeError (name : String)
  | typeError (msg : String)
deriving DecidableEq, Repr

/-- Decidable equality of fallible results, for evaluating the embedding on
concrete inputs. -/
instance exceptDecEq {ε α : Type} [DecidableEq ε] [DecidableEq α] :
    DecidableEq (Except ε α) := fun a b =>
  match a, b with
  | Except.ok x, Except.ok y =>
    if h : x = y then isTrue (by rw [h]) else isFalse (by intro hc; cases hc; exact h rfl)
  | Except.error x, Except.error y =>
    if h : x = y then isTrue (by rw [h]) else isFalse (by intro hc; cases hc; exact h rfl)
  | Except.ok _, Except.error _ => isFalse (by intro hc; cases hc)
  | Except.error _, Except.ok _ => isFalse (by intro hc; cases hc)

/-- The default frame labels `range(1, data.shape[0]+1)` from `prepare`. -/
def pyDefaultFrames (n : Nat) : List Int := (List.range n).map fun i => Int.ofNat i + 1

/-- The pandas `DataFrame(data, columns=features, index=index)` shape check:
for a non-empty numpy matrix the number of column labels must equal the row
width; an empty matrix accepts any column labels. -/
def dfShapeOk (data : List (List Rat)) (features : List String) : Bool :=
  match data with
  | [] => true
  | row :: _ => decide (features.length = row.length)

/-- `prepare(data, features, traj_file, frames, states, **metadata)` from
`src/orgtraj.py` lines 9-31.  The `pd.MultiIndex(levels=[frames, states],
labels=[range(N), range(N)])` construction gives row `i` the pair
`(frames[i], states[i])`; its integrity check rejects label `N-1` whenever a
supplied level sequence is shorter than `N` (entries beyond index `N-1` are
never selected).  The metadata dict receives `traj_file` by assignment. -/
def prepare (data : List (List Rat)) (features : List String) (traj_file : String)
    (frames : Option (List Int)) (states : Option (List Int)) (metadata : Metadata) :
    Except PyErr (DataFrame × Metadata) :=
  let n := data.length
  let framesL := frames.getD (pyDefaultFrames n)
  let statesL := states.getD (List.replicate n 0)
  if n ≤ framesL.length ∧ n ≤ statesL.length then
    if dfShapeOk data features then
      Except.ok ({ index := (framesL.take n).zip (statesL.take n),
                   columns := features, values := data },
                 dinsert "traj_file" (MVal.s traj_file) metadata)
    else
      Except.error (PyErr.valueError "Shape of passed values does not match the columns")
  else
    Except.error (PyErr.valueError "label would be out of bounds for level")

/-- A value stored in an orgtraj instance attribute: the `data` DataFrame or a
scalar metadata value. -/
inductive AttrVal
  | df (d : DataFrame)
  | v (m : MVal)
deriving DecidableEq, Repr

/-- An `orgtraj` instance: its dynamic attribute dictionary (`vars(self)`).
A freshly constructed instance has no attributes. -/
structure OT where
  attrs : Dict AttrVal
deriving DecidableEq, Repr

/-- Python attribute read `getattr(o, name)`, `none` meaning AttributeError. -/
def getattr (o : OT) (name : String) : Option AttrVal := dlookup name o.attrs

/-- Python `setattr(o, name, val)`. -/
def setattr (o : OT) (name : String) (val : AttrVal) : OT := ⟨dinsert name val o.attrs⟩

/-- The `for key, value in metadata.items(): setattr(self, key, value)` loop. -/
def setattrs (o : OT) (md : Metadata) : OT :=
  md.foldl (fun acc kv => setattr acc kv.1 (AttrVal.v kv.2)) o

/-- `orgtraj.trajin` (lines 101-116): run `prepare`, bind the DataFrame to
`self.data`, then flatten the metadata dict onto the instance. -/
def trajin (o : OT) (data : List (List Rat)) (features : List String) (traj_file : String)
    (frames : Option (List Int)) (states : Option (List Int)) (metadata : Metadata) :
    Except PyErr OT :=
  (prepare data features traj_file frames states metadata).map fun p =>
    setattrs (setattr o "data" (AttrVal.df p.1)) p.2

/-- One HDF5 container: its named datasets, each a serialized DataFrame with
an optional out-of-band metadata attribute (absent until assigned). -/
structure HStore where
  datasets : Dict (DataFrame × Option Metadata)
deriving DecidableEq, Repr

/-- The world the persistence layer acts on: the on-disk containers by file
name, plus the currently open container handles. -/
structure World where
  files : Dict HStore
  openHandles : List String
deriving DecidableEq, Repr

/-- `h5dump` (lines 33-45).  `pd.HDFStore(filename)` opens (creating if
absent) the container; `store.put` overwrites the dataset; the metadata dict
is then attached as the storer's `attrs.metadata`; `store.close()` runs only
after both steps, so a failing write (modelled by `putOk = false`, the
external store being fallible) leaves the handle open. -/
def h5dump (putOk : Bool) (w : World) (filename : String) (df : DataFrame)
    (dataset : String) (metadata : Metadata) : World × Except PyErr Unit :=
  let store := (dlookup filename w.files).getD ⟨[]⟩
  let opened : World := ⟨dinsert filename store w.files, filename :: w.openHandles⟩
  if putOk then
    let afterPut : HStore := ⟨dinsert dataset (df, none) store.datasets⟩
    let afterAttrs : HStore := ⟨dinsert dataset (df, some metadata) afterPut.datasets⟩
    (⟨dinsert filename afterAttrs opened.files, opened.openHandles.erase filename⟩,
     Except.ok ())
  else
    (opened, Except.error (PyErr.valueError "error writing dataset"))

/-- `h5load` (lines 47-59).  `with pd.HDFStore(filename) as store` scopes the
handle: it is released after the body whether the reads succeed (`store[dataset]`
raising KeyError when the dataset is absent, the storer's missing
`attrs.metadata` raising AttributeError) or not. -/
def h5load (w : World) (filename : String) (dataset : String) :
    World × Except PyErr (DataFrame × Metadata) :=
  let store := (dlookup filename w.files).getD ⟨[]⟩
  let opened : World := ⟨dinsert filename store w.files, filename :: w.openHandles⟩
  let result : Except PyErr (DataFrame × Metadata) :=
    match dlookup dataset store.datasets with
    | none => Except.error (PyErr.keyError dataset)
    | some (_, none) => Except.error (PyErr.attributeError "metadata")
    | some (df, some md) => Except.ok (df, md)
  (⟨opened.files, opened.openHandles.erase filename⟩, result)

/-- `orgtraj.trajread` (lines 118-125): `h5load(infile)` with the default
dataset name, then `self.data = data` and the `setattr` loop over the loaded
metadata; errors propagate. -/
def trajread (o : OT) (w : World) (infile : String) : World × Except PyErr OT :=
  let res := h5load w infile "traj"
  (res.1, res.2.map fun p => setattrs (setattr o "data" (AttrVal.df p.1)) p.2)

/-- The `obj.data` attribute read in `datalist = [obj.data for obj in
orgtraj_list]` (line 72). -/
def getDataAttr (o : OT) : Except PyErr DataFrame :=
  match getattr o "data" with
  | some (AttrVal.df d) => Except.ok d
  | some (AttrVal.v _) => Except.error (PyErr.typeError "data attribute is not a DataFrame")
  | none => Except.error (PyErr.attributeError "data")

/-- `point_dist` (lines 76-79): `np.sum((array - point) ** 2, axis=1)`, the
squared Euclidean distance of every row to the point; numpy rejects rows whose
width differs from the point's length. -/
def point_dist (dataframe : DataFrame) (point : List Rat) : Except PyErr (List Rat) :=
  if dataframe.values.all fun r => r.length == point.length then
    Except.ok (dataframe.values.map fun r => ((r.zip point).map fun p => (p.1 - p.2) ^ 2).sum)
  else
    Except.error (PyErr.valueError "operands could not be broadcast together")

/-- `np.min`: minimum of a list, failing on an empty array. -/
def npMin : List Rat → Except PyErr Rat
  | [] => Except.error (PyErr.valueError "zero-size array to reduction operation minimum")
  | x :: xs => Except.ok (xs.foldl min x)

/-- Accumulator scan behind `npArgmin`: strict improvement keeps the first
occurrence of the minimum. -/
def argminAux (best : Rat) (bestIdx : Nat) (i : Nat) : List Rat → Nat
  | [] => bestIdx
  | x :: xs => if x < best then argminAux x i (i + 1) xs else argminAux best bestIdx (i + 1) xs

/-- `np.argmin`: index of the first occurrence of the minimum. -/
def npArgmin : List Rat → Except PyErr Nat
  | [] => Except.error (PyErr.valueError "attempt to get argmin of an empty sequence")
  | x :: xs => Except.ok (argminAux x 0 1 xs)

/-- `find_frame` (lines 61-84), step for step: gather each object's `data`
table; check `len(point)` against the first table's column count only, with
the message of line 74; per-table squared distances, per-table minima, stable
argmin across tables, the winner's `traj_file` attribute, stable argmin within
the winner; finally line 83 reads `orgtraj_list[n_traj].index` — an attribute
of the orgtraj instance itself, distinct from the DataFrame index at
`orgtraj_list[n_traj].data.index`, and one the class never sets. -/
def find_frame (point : List Rat) (orgtraj_list : List OT) : Except PyErr (MVal × Int) :=
  match orgtraj_list.mapM getDataAttr with
  | Except.error e => Except.error e
  | Except.ok datalist =>
    match datalist with
    | [] => Except.error PyErr.indexError
    | d0 :: _ =>
      if point.length ≠ d0.columns.length then
        Except.error (PyErr.valueError "Point dimension must match feature space dimension.")
      else
        match datalist.mapM fun d => point_dist d point with
        | Except.error e => Except.error e
        | Except.ok distlists =>
          match distlists.mapM npMin with
          | Except.error e => Except.error e
          | Except.ok mins =>
            match npArgmin mins with
            | Except.error e => Except.error e
            | Except.ok n_traj =>
              match getattr (orgtraj_list.getD n_traj ⟨[]⟩) "traj_file" with
              | none => Except.error (PyErr.attributeError "traj_file")
              | some (AttrVal.df _) => Except.error (PyErr.typeError "unsupported traj_file value")
              | some (AttrVal.v _) =>
                match npArgmin (distlists.getD n_traj []) with
                | Except.error e => Except.error e
                | Except.ok _ =>
                  match getattr (orgtraj_list.getD n_traj ⟨[]⟩) "index" with
                  | none => Except.error (PyErr.attributeError "index")
                  | some _ =>
                    Except.error (PyErr.typeError "orgtraj index attribute does not subscript to a frame label")

/-- Follows the spec's wording of the nearest-point query (section 4.3):
identical to `find_frame` except that the final step maps the winning row
position through the winning trajectory's own composite `(frame, state)` row
index — `orgtraj_list[n_traj].data.index` — to retrieve the frame label, the
reading the specification describes. -/
def find_frame_spec (point : List Rat) (orgtraj_list : List OT) : Except PyErr (MVal × Int) :=
  match orgtraj_list.mapM getDataAttr with
  | Except.error e => Except.error e
  | Except.ok datalist =>
    match datalist with
    | [] => Except.error PyErr.indexError
    | d0 :: _ =>
      if point.length ≠ d0.columns.length then
        Except.error (PyErr.valueError "Point dimension must match feature space dimension.")
      else
        match datalist.mapM fun d => point_dist d point with
        | Except.error e => Except.error e
        | Except.ok distlists =>
          match distlists.mapM npMin with
          | Except.error e => Except.error e
          | Except.ok mins =>
            match npArgmin mins with
            | Except.error e => Except.error e
            | Except.ok n_traj =>
              match getattr (orgtraj_list.getD n_traj ⟨[]⟩) "traj_file" with
              | none => Except.error (PyErr.attributeError "traj_file")
              | some (AttrVal.df _) => Except.error (PyErr.typeError "unsupported traj_file value")
              | some (AttrVal.v tf) =>
                match npArgmin (distlists.getD n_traj []) with
                | Except.error e => Except.error e
                | Except.ok frame_index =>
                  Except.ok (tf, ((datalist.getD n_traj ⟨[], [], []⟩).index.getD frame_index (0, 0)).1)

/-! Dictionary and attribute lemmas. -/

theorem dlookup_dinsert_self {α : Type} (k : String) (v : α) (l : Dict α) :
    dlookup k (dinsert k v l) = some v := by
  induction l with
  | nil => simp [dinsert, dlookup]
  | cons kv rest ih =>
    by_cases h : kv.1 = k
    · simp [dinsert, dlookup, h]
    · simp [dinsert, dlookup, h, ih]

theorem dlookup_dinsert_ne {α : Type} (k k' : String) (v : α) (l : Dict α) (h : k ≠ k') :
    dlookup k' (dinsert k v l) = dlookup k' l := by
  induction l with
  | nil => simp [dinsert, dlookup, h]
  | cons kv rest ih =>
    obtain ⟨k0, v0⟩ := kv
    by_cases h0 : k0 = k
    · subst h0
      simp [dinsert, dlookup, h]
    · simp [dinsert, dlookup, h0, ih]

theorem dlookup_eq_none {α : Type} (k : String) (l : Dict α) (h : k ∉ l.map Prod.fst) :
    dlookup k l = none := by
  induction l with
  | nil => rfl
  | cons kv rest ih =>
    simp only [List.map_cons, List.mem_cons] at h
    push_neg at h
    have hne : kv.1 ≠ k := fun he => h.1 he.symm
    simp [dlookup, hne, ih h.2]

theorem mem_keys_dinsert {α : Type} (a k : String) (v : α) (l : Dict α) :
    a ∈ (dinsert k v l).map Prod.fst ↔ a = k ∨ a ∈ l.map Prod.fst := by
  induction l with
  | nil => simp [dinsert]
  | cons kv rest ih =>
    obtain ⟨k0, v0⟩ := kv
    by_cases h : k0 = k
    · subst h
      simp [dinsert]
    · simp [dinsert, h, ih]
      tauto

theorem nodup_keys_dinsert {α : Type} (k : String) (v : α) (l : Dict α)
    (h : (l.map Prod.fst).Nodup) : ((dinsert k v l).map Prod.fst).Nodup := by
  induction l with
  | nil => simp [dinsert]
  | cons kv rest ih =>
    obtain ⟨k0, v0⟩ := kv
    simp only [List.map_cons, List.nodup_cons] at h
    by_cases h0 : k0 = k
    · subst h0
      simpa [dinsert] using h
    · simp only [dinsert, if_neg h0, List.map_cons, List.nodup_cons]
      refine ⟨fun hmem => ?_, ih h.2⟩
      rcases (mem_keys_dinsert k0 k v rest).mp hmem with h1 | h1
      · exact h0 h1
      · exact h.1 h1

theorem getattr_setattr_self (o : OT) (n : String) (v : AttrVal) :
    getattr (setattr o n v) n = some v := dlookup_dinsert_self n v o.attrs

theorem getattr_setattr_ne (o : OT) (n n' : String) (v : AttrVal) (h : n ≠ n') :
    getattr (setattr o n v) n' = getattr o n' := dlookup_dinsert_ne n n' v o.attrs h

theorem getattr_setattrs (md : Metadata) (o : OT) (k : String)
    (hnd : (md.map Prod.fst).Nodup) :
    getattr (setattrs o md) k =
      match dlookup k md with
      | some v => some (AttrVal.v v)
      | none => getattr o k := by
  induction md generalizing o with
  | nil => simp [setattrs, dlookup]
  | cons kv rest ih =>
    simp only [List.map_cons, List.nodup_cons] at hnd
    have hstep : setattrs o (kv :: rest) = setattrs (setattr o kv.1 (AttrVal.v kv.2)) rest := rfl
    rw [hstep, ih _ hnd.2]
    by_cases hk : kv.1 = k
    · subst hk
      have hnone : dlookup kv.1 rest = none := dlookup_eq_none kv.1 rest hnd.1
      simp [dlookup, hnone, getattr_setattr_self]
    · cases hrest : dlookup k rest with
      | some v => simp [dlookup, hk, hrest]
      | none => simp [dlookup, hk, hrest, getattr_setattr_ne _ _ _ _ hk]

theorem zip_map_replicate {α β γ : Type} (l : List α) (f : α → β) (c : γ) :
    (l.map f).zip (List.replicate l.length c) = l.map fun x => (f x, c) := by
  induction l with
  | nil => rfl
  | cons a l ih => simp [List.replicate_succ, ih]

/-- Elimination for a successful `prepare`: the resulting table and metadata
in terms of the inputs. -/
theorem prepare_ok (data : List (List Rat)) (features : List String) (traj_file : String)
    (frames : Option (List Int)) (states : Option (List Int)) (metadata : Metadata)
    (p : DataFrame × Metadata)
    (h : prepare data features traj_file frames states metadata = Except.ok p) :
    p = ({ index := ((frames.getD (pyDefaultFrames data.length)).take data.length).zip
                      ((states.getD (List.replicate data.length 0)).take data.length),
           columns := features, values := data },
         dinsert "traj_file" (MVal.s traj_file) metadata) := by
  simp only [prepare] at h
  split at h
  · split at h
    · exact ((Except.ok.injEq _ _).mp h).symm
    · exact Except.noConfusion h
  · exact Except.noConfusion h

/-- A successful `h5dump` followed by `h5load` of the same container and
dataset name returns exactly the dumped table and metadata. -/
theorem h5_roundtrip (w : World) (filename dataset : String) (df : DataFrame) (md : Metadata) :
    (h5load (h5dump true w filename df dataset md).1 filename dataset).2 =
      Except.ok (df, md) := by
  simp [h5dump, h5load, dlookup_dinsert_self]

/-! Claim theorems. -/

/-- C1: on the spec's example collection — OT A with rows (0,0) frame 1 and
(10,10) frame 2, OT B with rows (5,5) frame 1 and (1,1) frame 7 — and query
point (0.9, 0.9), `find_frame` raises AttributeError for `index` at line 83
(the orgtraj instance stores the table under `data` and never has an `index`
attribute; the composite row index lives at `data.index`), instead of
returning B's traj_file with frame label 7.  The spec-following variant that
reads the winning table's own row index returns exactly (B, 7). -/
theorem C1_find_frame_example_attribute_bug :
    trajin ⟨[]⟩ [[0, 0], [10, 10]] ["x", "y"] "A" none none [] =
      Except.ok ⟨[("data", AttrVal.df ⟨[(1, 0), (2, 0)], ["x", "y"], [[0, 0], [10, 10]]⟩),
                  ("traj_file", AttrVal.v (MVal.s "A"))]⟩ ∧
    trajin ⟨[]⟩ [[5, 5], [1, 1]] ["x", "y"] "B" (some [1, 7]) none [] =
      Except.ok ⟨[("data", AttrVal.df ⟨[(1, 0), (7, 0)], ["x", "y"], [[5, 5], [1, 1]]⟩),
                  ("traj_file", AttrVal.v (MVal.s "B"))]⟩ ∧
    find_frame [9/10, 9/10]
      [⟨[("data", AttrVal.df ⟨[(1, 0), (2, 0)], ["x", "y"], [[0, 0], [10, 10]]⟩),
         ("traj_file", AttrVal.v (MVal.s "A"))]⟩,
       ⟨[("data", AttrVal.df ⟨[(1, 0), (7, 0)], ["x", "y"], [[5, 5], [1, 1]]⟩),
         ("traj_file", AttrVal.v (MVal.s "B"))]⟩] =
      Except.error (PyErr.attributeError "index") ∧
    find_frame_spec [9/10, 9/10]
      [⟨[("data", AttrVal.df ⟨[(1, 0), (2, 0)], ["x", "y"], [[0, 0], [10, 10]]⟩),
         ("traj_file", AttrVal.v (MVal.s "A"))]⟩,
       ⟨[("data", AttrVal.df ⟨[(1, 0), (7, 0)], ["x", "y"], [[5, 5], [1, 1]]⟩),
         ("traj_file", AttrVal.v (MVal.s "B"))]⟩] =
      Except.ok (MVal.s "B", 7) := by
  with_unfolding_all decide

/-- C4: on an exact tie (OT A rows (7,7),(0,0),(0,0) with default frames
1,2,3; OT B row (0,0) with frame 9; query point (0,0)) the code selects the
first OT in collection order and the first minimal row within it, but then
raises AttributeError for `index` at line 83 instead of returning the row's
identity.  The spec-following variant returns (A, 2): first OT on the
cross-trajectory tie, first minimal row position (row 1, frame label 2) on
the within-trajectory tie. -/
theorem C4_tie_break_attribute_bug :
    trajin ⟨[]⟩ [[7, 7], [0, 0], [0, 0]] ["x", "y"] "A" none none [] =
      Except.ok ⟨[("data", AttrVal.df ⟨[(1, 0), (2, 0), (3, 0)], ["x", "y"],
                    [[7, 7], [0, 0], [0, 0]]⟩),
                  ("traj_file", AttrVal.v (MVal.s "A"))]⟩ ∧
    find_frame [0, 0]
      [⟨[("data", AttrVal.df ⟨[(1, 0), (2, 0), (3, 0)], ["x", "y"],
           [[7, 7], [0, 0], [0, 0]]⟩),
         ("traj_file", AttrVal.v (MVal.s "A"))]⟩,
       ⟨[("data", AttrVal.df ⟨[(9, 0)], ["x", "y"], [[0, 0]]⟩),
         ("traj_file", AttrVal.v (MVal.s "B"))]⟩] =
      Except.error (PyErr.attributeError "index") ∧
    find_frame_spec [0, 0]
      [⟨[("data", AttrVal.df ⟨[(1, 0), (2, 0), (3, 0)], ["x", "y"],
           [[7, 7], [0, 0], [0, 0]]⟩),
         ("traj_file", AttrVal.v (MVal.s "A"))]⟩,
       ⟨[("data", AttrVal.df ⟨[(9, 0)], ["x", "y"], [[0, 0]]⟩),
         ("traj_file", AttrVal.v (MVal.s "B"))]⟩] =
      Except.ok (MVal.s "A", 2) := by
  with_unfolding_all decide

/-- C2: a successful `h5dump` of a composed table and metadata followed by
`h5load` of the same container and dataset name returns a table element-wise
and index-wise identical to the original (list equality of values, row index
pairs and column labels in order) and a metadata mapping equal key for key,
with `traj_file` present. -/
theorem C2_persist_load_roundtrip (data : List (List Rat)) (features : List String)
    (traj_file : String) (frames : Option (List Int)) (states : Option (List Int))
    (extra : Metadata) (df : DataFrame) (md : Metadata) (w : World) (filename dataset : String)
    (h : prepare data features traj_file frames states extra = Except.ok (df, md)) :
    (h5load (h5dump true w filename df dataset md).1 filename dataset).2 =
      Except.ok (df, md) ∧
    dlookup "traj_file" md = some (MVal.s traj_file) := by
  refine ⟨h5_roundtrip w filename dataset df md, ?_⟩
  have hp := prepare_ok data features traj_file frames states extra (df, md) h
  have hmd : md = dinsert "traj_file" (MVal.s traj_file) extra := by
    simpa using congrArg Prod.snd hp
  rw [hmd]
  exact dlookup_dinsert_self _ _ _

/-- Witness for C2 at a concrete composed table. -/
theorem C2_persist_load_roundtrip_witness :
    (h5load (h5dump true ⟨[], []⟩ "f.h5" ⟨[(1, 0)], ["x"], [[1]]⟩ "traj"
        [("traj_file", MVal.s "t")]).1 "f.h5" "traj").2 =
      Except.ok (⟨[(1, 0)], ["x"], [[1]]⟩, [("traj_file", MVal.s "t")]) ∧
    dlookup "traj_file" [("traj_file", MVal.s "t")] = some (MVal.s "t") :=
  C2_persist_load_roundtrip [[1]] ["x"] "t" none none [] _ _ ⟨[], []⟩ "f.h5" "traj"
    (by with_unfolding_all decide)

/-- C3 counterexample: `trajread` does not fully replace prior state.  An
instance with a pre-existing `foo` attribute keeps it after `trajread` even
though `foo` is not among the loaded metadata keys. -/
theorem C3_trajread_not_full_replacement :
    (trajread ⟨[("data", AttrVal.df ⟨[], [], []⟩), ("foo", AttrVal.v (MVal.i 1)),
                ("traj_file", AttrVal.v (MVal.s "a"))]⟩
       ((h5dump true ⟨[], []⟩ "f.h5" ⟨[(1, 0)], ["x"], [[1]]⟩ "traj"
          [("traj_file", MVal.s "b")]).1)
       "f.h5").2 =
      Except.ok ⟨[("data", AttrVal.df ⟨[(1, 0)], ["x"], [[1]]⟩),
                  ("foo", AttrVal.v (MVal.i 1)),
                  ("traj_file", AttrVal.v (MVal.s "b"))]⟩ ∧
    dlookup "foo" [("traj_file", MVal.s "b")] = none ∧
    getattr ⟨[("data", AttrVal.df ⟨[(1, 0)], ["x"], [[1]]⟩),
              ("foo", AttrVal.v (MVal.i 1)),
              ("traj_file", AttrVal.v (MVal.s "b"))]⟩ "foo" =
      some (AttrVal.v (MVal.i 1)) := by
  with_unfolding_all decide

/-- C3 amended: `trajread` is an overlay, not a full replacement.  On a
successful load it rebinds `data` to the loaded table and sets one attribute
per loaded metadata key, while every other pre-existing attribute survives
unchanged. -/
theorem C3_trajread_overlay (o : OT) (w : World) (infile : String) (df : DataFrame)
    (md : Metadata)
    (hload : (h5load w infile "traj").2 = Except.ok (df, md))
    (hnd : (md.map Prod.fst).Nodup) :
    (trajread o w infile).2 =
      Except.ok (setattrs (setattr o "data" (AttrVal.df df)) md) ∧
    ∀ k, getattr (setattrs (setattr o "data" (AttrVal.df df)) md) k =
      match dlookup k md with
      | some v => some (AttrVal.v v)
      | none => if k = "data" then some (AttrVal.df df) else getattr o k := by
  constructor
  · simp [trajread, hload, Except.map]
  · intro k
    rw [getattr_setattrs md _ k hnd]
    cases hmd : dlookup k md with
    | some v => simp [hmd]
    | none =>
      by_cases hk : k = "data"
      · subst hk
        simp [hmd, getattr_setattr_self]
      · simp [hmd, hk, getattr_setattr_ne _ _ _ _ (Ne.symm hk)]

/-- Witness for C3 at a concrete instance and store. -/
theorem C3_trajread_overlay_witness :
    (trajread ⟨[("bar", AttrVal.v (MVal.i 3))]⟩
       ((h5dump true ⟨[], []⟩ "g.h5" ⟨[(1, 0)], ["y"], [[2]]⟩ "traj"
          [("traj_file", MVal.s "g")]).1)
       "g.h5").2 =
      Except.ok (setattrs (setattr ⟨[("bar", AttrVal.v (MVal.i 3))]⟩ "data"
        (AttrVal.df ⟨[(1, 0)], ["y"], [[2]]⟩)) [("traj_file", MVal.s "g")]) :=
  (C3_trajread_overlay ⟨[("bar", AttrVal.v (MVal.i 3))]⟩ _ "g.h5" _ _
    (by with_unfolding_all decide) (by decide)).1

/-- C5 counterexample: the error message raised at line 74 carries a trailing
period, so it is not the string the claim quotes. -/
theorem C5_message_has_trailing_period :
    find_frame [1, 2]
      [⟨[("data", AttrVal.df ⟨[(1, 0)], ["x"], [[0]]⟩),
         ("traj_file", AttrVal.v (MVal.s "t"))]⟩] =
      Except.error (PyErr.valueError "Point dimension must match feature space dimension.") ∧
    "Point dimension must match feature space dimension." ≠
      "Point dimension must match feature space dimension" := by
  with_unfolding_all decide

/-- C5 amended: with a non-empty collection whose `data` attributes all
resolve, a query point whose length differs from the FIRST table's column
count makes `find_frame` fail with ValueError "Point dimension must match
feature space dimension." (trailing period included), whatever the remaining
tables look like and before any distance is computed. -/
theorem C5_dimension_check_first_table_only (point : List Rat) (objs : List OT)
    (d0 : DataFrame) (drest : List DataFrame)
    (hdata : objs.mapM getDataAttr = Except.ok (d0 :: drest))
    (hne : point.length ≠ d0.columns.length) :
    find_frame point objs =
      Except.error (PyErr.valueError "Point dimension must match feature space dimension.") := by
  unfold find_frame
  rw [hdata]
  simp [hne]

/-- Witness for C5 on a concrete one-column collection and length-2 point. -/
theorem C5_dimension_check_witness :
    find_frame [1, 2] [⟨[("data", AttrVal.df ⟨[(1, 0)], ["x"], [[0]]⟩)]⟩] =
      Except.error (PyErr.valueError "Point dimension must match feature space dimension.") :=
  C5_dimension_check_first_table_only [1, 2] _ ⟨[(1, 0)], ["x"], [[0]]⟩ []
    (by with_unfolding_all decide) (by decide)

/-- C6: composing with `frames` and `states` both absent yields the composite
row index ((1,0), (2,0), ..., (N,0)) in row order. -/
theorem C6_default_composite_index (data : List (List Rat)) (features : List String)
    (traj_file : String) (metadata : Metadata) (p : DataFrame × Metadata)
    (h : prepare data features traj_file none none metadata = Except.ok p) :
    p.1.index = (List.range data.length).map fun i => (Int.ofNat i + 1, (0 : Int)) := by
  rw [prepare_ok data features traj_file none none metadata p h]
  have hlen1 : (pyDefaultFrames data.length).length = data.length := by
    unfold pyDefaultFrames
    rw [List.length_map, List.length_range]
  have hlen2 : (List.replicate data.length (0 : Int)).length = data.length :=
    List.length_replicate _ _
  simp only [Option.getD_none]
  rw [List.take_of_length_le (le_of_eq hlen1), List.take_of_length_le (le_of_eq hlen2)]
  unfold pyDefaultFrames
  have h3 := zip_map_replicate (List.range data.length) (fun i => Int.ofNat i + 1) (0 : Int)
  rw [List.length_range] at h3
  exact h3

/-- Witness for C6 on a concrete two-row matrix. -/
theorem C6_default_composite_index_witness :
    ((⟨⟨[(1, 0), (2, 0)], ["x"], [[1], [2]]⟩,
        [("traj_file", MVal.s "t")]⟩ : DataFrame × Metadata)).1.index =
      (List.range 2).map fun i => (Int.ofNat i + 1, (0 : Int)) :=
  C6_default_composite_index [[1], [2]] ["x"] "t" [] _ (by with_unfolding_all decide)

/-- C7 counterexample: an OT populated via `trajread` from a dataset whose
metadata lacks `traj_file` (persisted by `h5dump` with an empty metadata
dict) has no `traj_file` attribute, so population does not always provide
one. -/
theorem C7_trajread_can_lack_traj_file :
    (trajread ⟨[]⟩ ((h5dump true ⟨[], []⟩ "f.h5" ⟨[(1, 0)], ["x"], [[1]]⟩ "traj" []).1)
       "f.h5").2 =
      Except.ok ⟨[("data", AttrVal.df ⟨[(1, 0)], ["x"], [[1]]⟩)]⟩ ∧
    getattr ⟨[("data", AttrVal.df ⟨[(1, 0)], ["x"], [[1]]⟩)]⟩ "traj_file" = none := by
  with_unfolding_all decide

/-- C7 amended: `prepare` always inserts or overwrites `traj_file` in the
returned metadata, and an OT populated via `trajin` always exposes a
`traj_file` attribute; after `trajread` the attribute is present exactly when
the loaded metadata mapping contains the key. -/
theorem C7_traj_file_present_after_compose :
    (∀ (data : List (List Rat)) (features : List String) (traj_file : String)
        (frames states : Option (List Int)) (md : Metadata) (p : DataFrame × Metadata),
        prepare data features traj_file frames states md = Except.ok p →
        dlookup "traj_file" p.2 = some (MVal.s traj_file)) ∧
    (∀ (o : OT) (data : List (List Rat)) (features : List String) (traj_file : String)
        (frames states : Option (List Int)) (md : Metadata),
        (md.map Prod.fst).Nodup →
        ∀ ot', trajin o data features traj_file frames states md = Except.ok ot' →
        getattr ot' "traj_file" = some (AttrVal.v (MVal.s traj_file))) := by
  constructor
  · intro data features traj_file frames states md p h
    rw [congrArg Prod.snd (prepare_ok data features traj_file frames states md p h)]
    exact dlookup_dinsert_self _ _ _
  · intro o data features traj_file frames states md hnd ot' h
    cases hp : prepare data features traj_file frames states md with
    | error e =>
      simp only [trajin, hp, Except.map] at h
      exact Except.noConfusion h
    | ok p =>
      simp only [trajin, hp, Except.map, Except.ok.injEq] at h
      subst h
      rw [congrArg Prod.snd (prepare_ok data features traj_file frames states md p hp)]
      rw [getattr_setattrs _ _ _ (nodup_keys_dinsert _ _ _ hnd)]
      rw [dlookup_dinsert_self]

/-- Witness for C7 on a concretely populated instance. -/
theorem C7_traj_file_present_witness :
    getattr ⟨[("data", AttrVal.df ⟨[(1, 0)], ["x"], [[1]]⟩),
              ("traj_file", AttrVal.v (MVal.s "t"))]⟩ "traj_file" =
      some (AttrVal.v (MVal.s "t")) :=
  C7_traj_file_present_after_compose.2 ⟨[]⟩ [[1]] ["x"] "t" none none [] (by decide) _
    (by with_unfolding_all decide)

/-- C8 counterexample: a supplied `frames` of length 2 and `states` of
length 3 on a 1-row matrix are accepted (only the first N entries are
selected by the labels), so a length mismatch does not always fail. -/
theorem C8_overlong_frames_accepted :
    prepare [[1]] ["f"] "t" (some [5, 6]) (some [0, 0, 0]) [] =
      Except.ok (⟨[(5, 0)], ["f"], [[1]]⟩, [("traj_file", MVal.s "t")]) ∧
    ([5, 6] : List Int).length ≠ ([[1]] : List (List Rat)).length ∧
    ([0, 0, 0] : List Int).length ≠ ([[1]] : List (List Rat)).length := by
  with_unfolding_all decide

/-- C8 amended: on a non-empty matrix, construction fails exactly when the
feature list length differs from the row width, or a supplied `frames` or
`states` sequence is SHORTER than N; longer sequences are accepted with only
their first N entries used. -/
theorem C8_construction_failure_characterization (r : List Rat) (drest : List (List Rat))
    (features : List String) (traj_file : String) (frames states : List Int) (md : Metadata) :
    (∃ e, prepare (r :: drest) features traj_file (some frames) (some states) md =
        Except.error e) ↔
      (features.length ≠ r.length ∨ frames.length < (r :: drest).length ∨
        states.length < (r :: drest).length) := by
  simp only [prepare, Option.getD_some, List.length_cons]
  split
  · rename_i hA
    split
    · rename_i hB
      simp only [dfShapeOk, decide_eq_true_eq] at hB
      constructor
      · rintro ⟨e, he⟩
        exact Except.noConfusion he
      · intro hr
        exfalso
        rcases hr with h | h | h
        · exact h hB
        · omega
        · omega
    · rename_i hB
      simp only [dfShapeOk, decide_eq_true_eq] at hB
      exact ⟨fun _ => Or.inl hB, fun _ => ⟨_, rfl⟩⟩
  · rename_i hA
    refine ⟨fun _ => ?_, fun _ => ⟨_, rfl⟩⟩
    omega

/-- C9 counterexample: `h5dump` is not scoped — when the write inside fails
the container handle stays open after the call. -/
theorem C9_h5dump_failure_leaves_handle_open :
    ((h5dump false ⟨[], []⟩ "f.h5" ⟨[], [], []⟩ "traj" []).1).openHandles = ["f.h5"] ∧
    (h5dump false ⟨[], []⟩ "f.h5" ⟨[], [], []⟩ "traj" []).2 =
      Except.error (PyErr.valueError "error writing dataset") ∧
    (["f.h5"] : List String) ≠ [] := by
  with_unfolding_all decide

/-- C9 amended: `h5load` (a `with` block) releases the container handle on
every exit path, and `h5dump` releases it on the success path only — a failed
write leaves the handle open. -/
theorem C9_handle_release_behaviour :
    (∀ (w : World) (filename dataset : String),
        ((h5load w filename dataset).1).openHandles = w.openHandles) ∧
    (∀ (w : World) (filename : String) (df : DataFrame) (dataset : String) (md : Metadata),
        ((h5dump true w filename df dataset md).1).openHandles = w.openHandles) ∧
    (∀ (w : World) (filename : String) (df : DataFrame) (dataset : String) (md : Metadata),
        ((h5dump false w filename df dataset md).1).openHandles =
          filename :: w.openHandles) := by
  refine ⟨fun w f ds => ?_, fun w f df ds md => ?_, fun w f df ds md => ?_⟩
  · simp [h5load]
  · simp [h5dump]
  · simp [h5dump]

/-- C10: on the empty collection `find_frame` fails with IndexError from
`datalist[0]` for every query point — before the dimension check (whose
ValueError is never reached) and before any distance computation, and it
never returns a result. -/
theorem C10_find_frame_empty_collection (point : List Rat) :
    find_frame point [] = Except.error PyErr.indexError := rfl

end Orgtraj
